import Mathlib

/-!
Verification of the placeholder-image generation core
(repository gopkg-dev/placeholder).

Shallow embedding conventions:
* Go `string` values are byte sequences, embedded as `List Nat`
  (each element a byte `0..255`); we call this `GoStr`.
* Go `int` is embedded as `Int`; `float64` arithmetic is embedded as
  exact rational arithmetic (`Rat`).  Every floating constant of the
  source (`0.85`, `0.8`, `0.4`, `0.02`, `12.0`, `150.0`, `200.0`, `0.15`)
  is exactly the same literal on both the code side and the spec side,
  so the code/spec comparison is unaffected by the idealization.
* Pointer mutation of the request (`req.Text = "Invalid UTF-8"` in
  `createImage`) is embedded by returning the updated request.
* External libraries (gg drawing context, image encoders, opentype font
  parsing, crypto/md5) are embedded as constructors / records that
  capture exactly the arguments the source passes to them.
-/

namespace Placeholder

instance {ε α : Type} [DecidableEq ε] [DecidableEq α] : DecidableEq (Except ε α) := fun a b =>
  match a, b with
  | .ok x, .ok y =>
    if h : x = y then .isTrue (by rw [h]) else .isFalse (by intro hc; cases hc; exact h rfl)
  | .error x, .error y =>
    if h : x = y then .isTrue (by rw [h]) else .isFalse (by intro hc; cases hc; exact h rfl)
  | .ok _, .error _ => .isFalse (by intro hc; cases hc)
  | .error _, .ok _ => .isFalse (by intro hc; cases hc)

/-- A Go string: a sequence of bytes. -/
abbrev GoStr := List Nat

/-- `isOk` discriminator for `Except` results. -/
def exceptIsOk {ε α : Type} : Except ε α → Bool
  | .ok _ => true
  | .error _ => false

/-! ### ASCII byte-string constants used by the source -/

/-- Bytes of the ASCII string `png`. -/
def pngBytes : GoStr := [112, 110, 103]

/-- Bytes of the ASCII string `jpg`. -/
def jpgBytes : GoStr := [106, 112, 103]

/-- Bytes of the ASCII string `jpeg`. -/
def jpegBytes : GoStr := [106, 112, 101, 103]

/-- Bytes of the ASCII string `gif`. -/
def gifBytes : GoStr := [103, 105, 102]

/-- Bytes of the ASCII string `webp`. -/
def webpBytes : GoStr := [119, 101, 98, 112]

/-- `MaxImageSize = 3000` (types.go). -/
def MaxImageSize : Int := 3000

/-- `DefaultBg = "cccccc"` (types.go); byte 99 is ASCII `c`. -/
def DefaultBg : GoStr := [99, 99, 99, 99, 99, 99]

/-- `DefaultFg = "666666"` (types.go); byte 54 is ASCII `6`. -/
def DefaultFg : GoStr := [54, 54, 54, 54, 54, 54]

/-- `DefaultType = "png"` (types.go). -/
def DefaultType : GoStr := pngBytes

/-- Bytes of the ASCII string `Invalid UTF-8`, the renderer's
substitution text (generator source, line 104). -/
def invalidUTF8Text : GoStr := [73, 110, 118, 97, 108, 105, 100, 32, 85, 84, 70, 45, 56]

/-! ### UTF-8 (Go `unicode/utf8` semantics)

`utf8First l` inspects the first encoded rune of `l` and returns
`(bytes consumed, valid?)`.  Exactly Go's acceptance rules: overlong
encodings, surrogate halves and values above U+10FFFF are invalid, and
an invalid sequence consumes one byte (`DecodeRune` returns size 1 on
error).  `utf8RuneCount` is `utf8.RuneCountInString`, `utf8ValidStr` is
`utf8.ValidString`. -/

/-- Is `b` a UTF-8 continuation byte `0x80..0xBF`? -/
def isCont (b : Nat) : Bool := decide (128 ≤ b ∧ b ≤ 191)

/-- Accepted second-byte range of a 3-byte sequence headed by `b0`
(Go's `acceptRanges`: excludes overlongs and surrogates). -/
def accept3 (b0 b1 : Nat) : Bool :=
  if b0 = 224 then decide (160 ≤ b1 ∧ b1 ≤ 191)
  else if b0 = 237 then decide (128 ≤ b1 ∧ b1 ≤ 159)
  else isCont b1

/-- Accepted second-byte range of a 4-byte sequence headed by `b0`
(Go's `acceptRanges`: excludes overlongs and values above U+10FFFF). -/
def accept4 (b0 b1 : Nat) : Bool :=
  if b0 = 240 then decide (144 ≤ b1 ∧ b1 ≤ 191)
  else if b0 = 244 then decide (128 ≤ b1 ∧ b1 ≤ 143)
  else isCont b1

/-- Size and validity of the first UTF-8 encoded rune of a byte string. -/
def utf8First (l : List Nat) : Nat × Bool :=
  match l with
  | [] => (0, false)
  | b0 :: rest =>
    if b0 ≤ 127 then (1, true)
    else if 194 ≤ b0 ∧ b0 ≤ 223 then
      match rest with
      | b1 :: _ => if isCont b1 then (2, true) else (1, false)
      | [] => (1, false)
    else if 224 ≤ b0 ∧ b0 ≤ 239 then
      match rest with
      | b1 :: b2 :: _ => if accept3 b0 b1 && isCont b2 then (3, true) else (1, false)
      | _ => (1, false)
    else if 240 ≤ b0 ∧ b0 ≤ 244 then
      match rest with
      | b1 :: b2 :: b3 :: _ =>
        if accept4 b0 b1 && isCont b2 && isCont b3 then (4, true) else (1, false)
      | _ => (1, false)
    else (1, false)

/-- Rune-counting loop, structurally recursive on a fuel argument so
that it also evaluates inside the kernel.  Each step consumes at least
one byte, so any `fuel ≥ l.length` gives the loop's full behavior. -/
def utf8CountFuel : Nat → List Nat → Nat
  | _, [] => 0
  | 0, _ :: _ => 0
  | fuel + 1, b :: rest => 1 + utf8CountFuel fuel (rest.drop ((utf8First (b :: rest)).1 - 1))

/-- `utf8.RuneCountInString`: each invalid byte counts as one rune. -/
def utf8RuneCount (l : List Nat) : Nat := utf8CountFuel l.length l

/-- Validity loop, structurally recursive on fuel (see `utf8CountFuel`). -/
def utf8ValidFuel : Nat → List Nat → Bool
  | _, [] => true
  | 0, _ :: _ => false
  | fuel + 1, b :: rest =>
    (utf8First (b :: rest)).2 && utf8ValidFuel fuel (rest.drop ((utf8First (b :: rest)).1 - 1))

/-- `utf8.ValidString`: every rune of the string is validly encoded. -/
def utf8ValidStr (l : List Nat) : Bool := utf8ValidFuel l.length l

/-! ### Decimal printing (fmt `%d`) and parsing (strconv.Atoi) -/

/-- Decimal digits (as ASCII bytes) of a natural number, most
significant first; the byte string `fmt.Sprintf` `%d` produces. -/
def natDec (n : Nat) : GoStr :=
  if h : n < 10 then [48 + n] else natDec (n / 10) ++ [48 + n % 10]
termination_by n
decreasing_by exact Nat.div_lt_self (by omega) (by omega)

/-- `%d` of a Go `int`: a `-` sign (byte 45) followed by the digits of
the absolute value when negative. -/
def intDec (i : Int) : GoStr :=
  if i < 0 then 45 :: natDec (-i).toNat else natDec i.toNat

/-- Numeric value of a string of ASCII decimal digits (the exact value
`strconv.Atoi` computes on an all-digit string; `Atoi`'s int64 overflow
failure is not modelled — oversized values are rejected by the range
check of `ParseSize` either way). -/
def decVal (l : GoStr) : Nat := l.foldl (fun acc d => acc * 10 + (d - 48)) 0

/-! ### Request model and validator (types.go) -/

/-- `ImageRequest` (types.go lines 12–19).  The Go field `Type` is
renamed `Type'` because `Type` is a Lean keyword. -/
structure ImageRequest where
  Width : Int
  Height : Int
  Type' : GoStr
  BgColor : GoStr
  FgColor : GoStr
  Text : GoStr
deriving DecidableEq

/-- `ImageSize` (types.go lines 22–25). -/
structure ImageSize where
  Width : Int
  Height : Int
deriving DecidableEq

/-- Query parameters reaching `NewImageRequest` (handler.go; only
`Bg`, `Fg`, `Text` are read by the validator). -/
structure RequestQueryParams where
  Bg : GoStr
  Fg : GoStr
  Text : GoStr
deriving DecidableEq

/-- `color.RGBA`. -/
structure RGBA where
  r : Nat
  g : Nat
  b : Nat
  a : Nat
deriving DecidableEq

/-- The distinct error values produced by the embedded core (the Go
source returns `error` values with these distinct messages). -/
inductive GenErr where
  /-- "invalid size format, expected WIDTHxHEIGHT" -/
  | invalidSizeFormat
  /-- "size must be between 1x1 and 3000x3000" -/
  | sizeOutOfRange
  /-- "unsupported image type: %s" (validator) -/
  | unsupportedImageType (t : GoStr)
  /-- "invalid background color: %s" -/
  | invalidBackgroundColor (c : GoStr)
  /-- "invalid foreground color: %s" -/
  | invalidForegroundColor (c : GoStr)
  /-- "invalid hex color length: %s" -/
  | invalidHexColorLength (c : GoStr)
  /-- `strconv.ParseUint` failure inside `parseHexColor` -/
  | invalidHexDigit (c : GoStr)
  /-- "unsupported image type: %s" (encoder) -/
  | unsupportedEncodeType (t : GoStr)
deriving DecidableEq

/-- The spec's `InvalidSize` error kind: any failure of the size-token
validation. -/
def InvalidSizeErr (e : GenErr) : Prop :=
  e = .invalidSizeFormat ∨ e = .sizeOutOfRange

/-- ASCII decimal digit byte (regex class `\d`). -/
def isDigitByte (b : Nat) : Bool := decide (48 ≤ b ∧ b ≤ 57)

/-- Hexadecimal digit byte (regex class `[a-fA-F0-9]`). -/
def isHexDigitByte (b : Nat) : Bool :=
  decide ((48 ≤ b ∧ b ≤ 57) ∨ (97 ≤ b ∧ b ≤ 102) ∨ (65 ≤ b ∧ b ≤ 70))

/-- Match of the anchored regex `^(\d+)x(\d+)$` (types.go line 29):
`some (d1, d2)` gives the two digit groups.  A maximal digit prefix
followed by byte 120 (ASCII `x`) followed by a nonempty all-digit
suffix — exactly the strings the regex accepts, since `\d+` cannot
consume the `x` and backtracking cannot move the `x` onto a digit. -/
def matchSize (l : GoStr) : Option (GoStr × GoStr) :=
  let d1 := l.takeWhile isDigitByte
  match l.drop d1.length with
  | x :: rest2 =>
    if x = 120 ∧ d1 ≠ [] ∧ rest2 ≠ [] ∧ rest2.all isDigitByte then some (d1, rest2) else none
  | [] => none

/-- `ParseSize` (types.go lines 50–71). -/
def ParseSize (sizeStr : GoStr) : Except GenErr ImageSize :=
  match matchSize sizeStr with
  | none => .error .invalidSizeFormat
  | some (d1, d2) =>
    let width : Int := (decVal d1 : Int)
    let height : Int := (decVal d2 : Int)
    if width ≤ 0 ∨ height ≤ 0 ∨ width > MaxImageSize ∨ height > MaxImageSize then
      .error .sizeOutOfRange
    else
      .ok { Width := width, Height := height }

/-- ASCII lowering of one byte.  Models `strings.ToLower` byte-wise:
on the arguments that matter (membership of the lowered string in the
five ASCII format names) the byte-wise model agrees with Go's
Unicode-aware lowering, since no non-ASCII rune lowers into any of
those names. -/
def toLowerByte (b : Nat) : Nat := if 65 ≤ b ∧ b ≤ 90 then b + 32 else b

/-- `strings.ToLower` (ASCII model, see `toLowerByte`). -/
def toLowerStr (l : GoStr) : GoStr := l.map toLowerByte

/-- The `validTypes` map (types.go lines 41–47) as a membership test. -/
def validTypes (t : GoStr) : Bool :=
  decide (t = pngBytes ∨ t = gifBytes ∨ t = jpgBytes ∨ t = jpegBytes ∨ t = webpBytes)

/-- `ValidateType` (types.go lines 74–76). -/
def ValidateType (imageType : GoStr) : Bool := validTypes (toLowerStr imageType)

/-- `ValidateColor` (types.go lines 79–84): empty passes, otherwise the
regex `^[a-fA-F0-9]{6}$`. -/
def ValidateColor (c : GoStr) : Bool :=
  if c = [] then true else decide (c.length = 6) && c.all isHexDigitByte

/-- `applyDefault` (types.go lines 87–92). -/
def applyDefault (value defaultValue : GoStr) : GoStr :=
  if value = [] then defaultValue else value

/-- `NewImageRequest` (types.go lines 95–132). -/
def NewImageRequest (sizeStr imageType : GoStr) (p : RequestQueryParams) :
    Except GenErr ImageRequest :=
  match ParseSize sizeStr with
  | .error e => .error e
  | .ok size =>
    let imageType := if imageType = [] then DefaultType else imageType
    if ¬ ValidateType imageType then .error (.unsupportedImageType imageType)
    else
      let bg := applyDefault p.Bg DefaultBg
      if ¬ ValidateColor bg then .error (.invalidBackgroundColor bg)
      else
        let fg := applyDefault p.Fg DefaultFg
        if ¬ ValidateColor fg then .error (.invalidForegroundColor fg)
        else
          let text := applyDefault p.Text (intDec size.Width ++ [120] ++ intDec size.Height)
          .ok { Width := size.Width, Height := size.Height, Type' := toLowerStr imageType,
                BgColor := bg, FgColor := fg, Text := text }

/-! ### Hex colors (generator source, `parseHexColor`) -/

/-- Value of one hexadecimal digit byte, if any. -/
def hexDigitVal (b : Nat) : Option Nat :=
  if 48 ≤ b ∧ b ≤ 57 then some (b - 48)
  else if 97 ≤ b ∧ b ≤ 102 then some (b - 87)
  else if 65 ≤ b ∧ b ≤ 70 then some (b - 55)
  else none

/-- `strconv.ParseUint(s, 16, 8)` on a two-byte slice (two hex digits
always fit in 8 bits, so the bit-size check never fires). -/
def parseHexPair (hi lo orig0 : Nat) (orig : GoStr) : Except GenErr Nat :=
  match hexDigitVal hi, hexDigitVal lo with
  | some v1, some v2 => .ok (16 * v1 + v2)
  | _, _ => .error (.invalidHexDigit (orig0 :: orig))

/-- `parseHexColor` (generator source, lines 155–174). -/
def parseHexColor (hexColor : GoStr) : Except GenErr RGBA :=
  match hexColor with
  | [c0, c1, c2, c3, c4, c5] =>
    match parseHexPair c0 c1 c0 [c1, c2, c3, c4, c5] with
    | .error e => .error e
    | .ok r =>
      match parseHexPair c2 c3 c0 [c1, c2, c3, c4, c5] with
      | .error e => .error e
      | .ok g =>
        match parseHexPair c4 c5 c0 [c1, c2, c3, c4, c5] with
        | .error e => .error e
        | .ok b => .ok { r := r, g := g, b := b, a := 255 }
  | _ => .error (.invalidHexColorLength hexColor)

/-! ### Layout (generator source, `calculateOptimalFontSize`) -/

/-- `calculateOptimalFontSize` (generator source, lines 177–218),
with `float64` arithmetic embedded as exact rational arithmetic. -/
def calculateOptimalFontSize (width height : Int) (text : GoStr) : Rat :=
  let minDim : Rat := if height < width then (height : Rat) else (width : Rat)
  let runeCount : Rat := (utf8RuneCount text : Rat)
  let runeCount : Rat := if runeCount = 0 then 1 else runeCount
  let targetWidthRatio : Rat := 0.85
  let avgCharWidth : Rat := ((width : Rat) * targetWidthRatio) / runeCount
  let dimensionScale : Rat := minDim / 200.0
  let baseFontSize : Rat := avgCharWidth * 0.8 * dimensionScale
  let maxFontSize : Rat := minDim * 0.4
  let minFontSize : Rat := minDim * 0.02
  let minFontSize : Rat := if minFontSize < 12.0 then 12.0 else minFontSize
  let maxFontSize : Rat := if maxFontSize > 150.0 then 150.0 else maxFontSize
  let fontSize : Rat := baseFontSize
  let fontSize : Rat := if fontSize > maxFontSize then maxFontSize else fontSize
  let fontSize : Rat := if fontSize < minFontSize then minFontSize else fontSize
  fontSize

/-- The spec's six-step font-size algorithm (spec §4.3), written from
the spec's own words, for comparison with the source function:
`clamp(x, lo, hi) = max(lo, min(x, hi))`. -/
def spec_computeFontSize (width height : Int) (text : GoStr) : Rat :=
  let minDim : Rat := min (width : Rat) (height : Rat)
  let glyphCount : Rat := max 1 (utf8RuneCount text : Rat)
  let avgCharWidth : Rat := ((width : Rat) * 0.85) / glyphCount
  let dimensionScale : Rat := minDim / 200.0
  let baseFontSize : Rat := avgCharWidth * 0.8 * dimensionScale
  let maxFontSize : Rat := min 150.0 (minDim * 0.4)
  let minFontSize : Rat := max 12.0 (minDim * 0.02)
  max minFontSize (min baseFontSize maxFontSize)

/-! ### Font resource manager (font source file) -/

/-- A font face: `opentype.NewFace(parsedFont, &FaceOptions{Size, DPI})`,
recording the construction arguments. -/
structure Face where
  size : Rat
  dpi : Rat
deriving DecidableEq

/-- The face the gg drawing context draws with: either an opentype face
installed by `SetFontFace`, or the face resulting from the
`dc.LoadFontFace(path, size)` fallback call (resolved by the external
gg library; the source discards its error). -/
inductive ActiveFace where
  | otf (f : Face)
  | loadFromPath (path : GoStr) (size : Rat)
deriving DecidableEq

/-- `FontPool` (font source, lines 22–24): a bounded channel of faces,
embedded as a capacity plus the queued faces. -/
structure FontPool where
  cap : Nat
  faces : List Face
deriving DecidableEq

/-- Outcomes fixed by the process environment: whether the one-time
`opentype.Parse` of the embedded font (and `NewFace` construction)
succeeds — an external-library outcome, identical for all calls
because the result is cached under `sync.Once` — and the text metrics
`gg.MeasureString` reports (external font rasterizer). -/
structure Env where
  fontOK : Bool
  measureH : ActiveFace → GoStr → Rat

/-- `FONT_POOL_SIZE = 32`. -/
def FONT_POOL_SIZE : Nat := 32

/-- `parseEmbeddedFont` (font source, lines 63–80): returns a face at
exactly the requested size and DPI when the cached parse succeeded. -/
def parseEmbeddedFont (env : Env) (fontSize dpi : Rat) : Option Face :=
  if env.fontOK then some { size := fontSize, dpi := dpi } else none

/-- `NewFontPool` (font source, lines 27–38): pre-populates the pool
with faces parsed at size 24, DPI 72. -/
def NewFontPool (env : Env) (size : Nat) : FontPool :=
  { cap := size,
    faces := (List.range size).filterMap fun _ => parseEmbeddedFont env 24.0 72 }

/-- `GetFont` (font source, lines 41–48): always constructs a fresh
face at the exact requested size; the pool is deliberately not
consulted (source comment: pool disabled for size accuracy). -/
def GetFont (_fp : FontPool) (env : Env) (fontSize : Rat) : Option Face :=
  parseEmbeddedFont env fontSize 72

/-- `PutFont` (font source, lines 51–59): non-blocking channel send —
drops the face when the pool is full; `nil` faces are ignored. -/
def PutFont (fp : FontPool) (f : Option Face) : FontPool :=
  match f with
  | none => fp
  | some face =>
    if fp.faces.length < fp.cap then { fp with faces := fp.faces ++ [face] } else fp

/-! ### Renderer (generator source, `createImage`) -/

/-- The drawing context at the end of `createImage`, recording each
effect the source performs on the gg context: canvas dimensions,
background fill, foreground color, active font face, the text actually
drawn, and the anchor point passed to `DrawStringAnchored`. -/
structure ImageCtx where
  width : Int
  height : Int
  bg : RGBA
  fg : RGBA
  face : ActiveFace
  drawnText : GoStr
  anchorX : Rat
  anchorY : Rat
deriving DecidableEq

/-- Encoded image bytes, recording the encoder the source dispatched to
and the options it passed (the byte serialization itself is performed
by external `image/...` libraries). -/
inductive EncodedImage where
  /-- `png.Encode` (default compression) -/
  | png (img : ImageCtx)
  /-- `jpeg.Encode` with `&jpeg.Options{Quality: q}` -/
  | jpeg (quality : Nat) (img : ImageCtx)
  /-- `gif.Encode` with options `o` (the source passes `nil`) -/
  | gif (o : Option Unit) (img : ImageCtx)
  /-- `webp.Encode` with `&webp.Options{Quality: q}` -/
  | webp (quality : Nat) (img : ImageCtx)
deriving DecidableEq

/-! ### Result cache

Modelled from the spec: the `cache` package
(`github.com/gopkg-dev/placeholder/cache`) is part of this repository
but its source is not present under `src/`; the model below follows
spec §4.6 — a capacity-bounded LRU key/value store with time-based
expiry (entries older than `maxAge` are treated as absent on lookup
even if still resident) and update-age-on-get (a hit refreshes both
recency and age).  Entries are kept most-recent-first. -/
structure LruCache where
  cap : Nat
  maxAge : Nat
  entries : List (GoStr × Nat × EncodedImage)
deriving DecidableEq

/-- `MAX_CACHE_ITEMS = 10000`. -/
def MAX_CACHE_ITEMS : Nat := 10000

/-- `CACHE_MAX_AGE = 3600` seconds. -/
def CACHE_MAX_AGE : Nat := 3600

/-- Modelled from the spec: a fresh cache as configured by
`NewImageGenerator` (`WithSize`, `WithAge`, `WithUpdateAgeOnGet`). -/
def cacheNew : LruCache :=
  { cap := MAX_CACHE_ITEMS, maxAge := CACHE_MAX_AGE, entries := [] }

/-- Modelled from the spec: `LruCache.Get` at time `now`.  A miss — or
an expired entry — leaves the cache unchanged; a hit refreshes the
entry and moves it to the front. -/
def cacheGet (now : Nat) (c : LruCache) (k : GoStr) : Option EncodedImage × LruCache :=
  match c.entries.find? (fun e => e.1 = k) with
  | none => (none, c)
  | some (k2, t, v) =>
    if now - t > c.maxAge then (none, c)
    else (some v, { c with entries := (k2, now, v) :: c.entries.filter fun e => ¬ e.1 = k })

/-- Modelled from the spec: `LruCache.Set` at time `now` — insert at
the front, dropping any previous binding and evicting from the
least-recently-used end beyond capacity. -/
def cacheSet (now : Nat) (c : LruCache) (k : GoStr) (v : EncodedImage) : LruCache :=
  { c with entries := ((k, now, v) :: c.entries.filter fun e => ¬ e.1 = k).take c.cap }

/-! ### Image generator (generator source) -/

/-- `ImageGenerator` (generator source, lines 32–35). -/
structure ImageGenerator where
  memoryCache : LruCache
  fontPool : FontPool
deriving DecidableEq

/-- `NewImageGenerator` (generator source, lines 38–47). -/
def NewImageGenerator (env : Env) : ImageGenerator :=
  { memoryCache := cacheNew, fontPool := NewFontPool env FONT_POOL_SIZE }

/-- The pre-hash serialization of `getCacheKey` (generator source,
line 149): `fmt.Sprintf` with format `%dx%d_%s_%s_%s_%s`; byte 120 is
`x`, byte 95 is `_`. -/
def serializeKey (req : ImageRequest) : GoStr :=
  intDec req.Width ++ [120] ++ intDec req.Height ++ [95] ++ req.Type' ++ [95] ++
    req.BgColor ++ [95] ++ req.FgColor ++ [95] ++ req.Text

/-- Model of the external `crypto/md5` digest: a deterministic function
of the input bytes with a fixed 128-bit state, folded over the message.
The concrete compression function is irrelevant here — the verified
properties (determinism, fixed output length, and injectivity of the
pre-hash serialization) do not depend on it. -/
def digest128 (msg : GoStr) : Nat :=
  msg.foldl (fun h b => (h * 16777619 + b) % 2 ^ 128) 2166136261

/-- Lowercase hexadecimal digit byte for a value below 16. -/
def hexDigitByte (v : Nat) : Nat := if v < 10 then 48 + v else 87 + v

/-- Fixed-width big-endian hexadecimal rendering of a number
(`fmt.Sprintf` `%x` of the 16-byte digest yields 32 such digits). -/
def hexRender : Nat → Nat → GoStr
  | 0, _ => []
  | w + 1, v => hexRender w (v / 16) ++ [hexDigitByte (v % 16)]

/-- The digest rendered as 32 lowercase hex characters. -/
def md5Hex (msg : GoStr) : GoStr := hexRender 32 (digest128 msg)

/-- `getCacheKey` (generator source, lines 148–152). -/
def getCacheKey (req : ImageRequest) : GoStr := md5Hex (serializeKey req)

/-- `createImage` (generator source, lines 77–123).  Returns the
result together with the updated font pool, and — inside the success
value — the possibly mutated request (`req` is a pointer in the
source, and line 104 assigns `req.Text`). -/
def createImage (env : Env) (ig : ImageGenerator) (req : ImageRequest) :
    Except GenErr (ImageCtx × ImageRequest) × FontPool :=
  match parseHexColor req.BgColor with
  | .error e => (.error e, ig.fontPool)
  | .ok bgColor =>
    match parseHexColor req.FgColor with
    | .error e => (.error e, ig.fontPool)
    | .ok fgColor =>
      let fontSize := calculateOptimalFontSize req.Width req.Height req.Text
      let fontFace := GetFont ig.fontPool env fontSize
      let face : ActiveFace :=
        match fontFace with
        | some f => .otf f
        | none => .loadFromPath [] fontSize
      let pool := PutFont ig.fontPool fontFace
      let text := if utf8ValidStr req.Text then req.Text else invalidUTF8Text
      let req2 : ImageRequest := { req with Text := text }
      let centerX : Rat := (req.Width : Rat) / 2
      let textHeight := env.measureH face text
      let visualOffset := textHeight * 0.15
      let centerY : Rat := (req.Height : Rat) / 2 - visualOffset
      (.ok ({ width := req.Width, height := req.Height, bg := bgColor, fg := fgColor,
              face := face, drawnText := text, anchorX := centerX, anchorY := centerY },
            req2),
       pool)

/-- `encodeImage` (generator source, lines 126–145). -/
def encodeImage (img : ImageCtx) (imageType : GoStr) : Except GenErr EncodedImage :=
  if imageType = pngBytes then .ok (.png img)
  else if imageType = jpgBytes ∨ imageType = jpegBytes then .ok (.jpeg 90 img)
  else if imageType = gifBytes then .ok (.gif none img)
  else if imageType = webpBytes then .ok (.webp 90 img)
  else .error (.unsupportedEncodeType imageType)

/-- `GenerateImage` (generator source, lines 50–74): compute the cache
key from the incoming request, try the cache, otherwise create and
encode the image and store the bytes.  (The `data.([]byte)` type
assertion on a hit always succeeds, since only `[]byte` values are
stored.)  Returns the result, the updated generator state, and the
(possibly mutated) request. -/
def GenerateImage (env : Env) (now : Nat) (ig : ImageGenerator) (req : ImageRequest) :
    Except GenErr EncodedImage × ImageGenerator × ImageRequest :=
  let cacheKey := getCacheKey req
  match cacheGet now ig.memoryCache cacheKey with
  | (some data, cache2) => (.ok data, { ig with memoryCache := cache2 }, req)
  | (none, _) =>
    match createImage env ig req with
    | (.error e, pool2) => (.error e, { ig with fontPool := pool2 }, req)
    | (.ok (img, req2), pool2) =>
      match encodeImage img req2.Type' with
      | .error e => (.error e, { ig with fontPool := pool2 }, req2)
      | .ok data =>
        (.ok data, { memoryCache := cacheSet now ig.memoryCache cacheKey data,
                     fontPool := pool2 }, req2)

/-- Does `r2` differ from `r1` in exactly the one named field?  Used to
state single-field sensitivity of the cache-key serialization. -/
def oneFieldDiff (r1 r2 : ImageRequest) : Prop :=
  (r1.Width ≠ r2.Width ∧ r1.Height = r2.Height ∧ r1.Type' = r2.Type' ∧
    r1.BgColor = r2.BgColor ∧ r1.FgColor = r2.FgColor ∧ r1.Text = r2.Text) ∨
  (r1.Width = r2.Width ∧ r1.Height ≠ r2.Height ∧ r1.Type' = r2.Type' ∧
    r1.BgColor = r2.BgColor ∧ r1.FgColor = r2.FgColor ∧ r1.Text = r2.Text) ∨
  (r1.Width = r2.Width ∧ r1.Height = r2.Height ∧ r1.Type' ≠ r2.Type' ∧
    r1.BgColor = r2.BgColor ∧ r1.FgColor = r2.FgColor ∧ r1.Text = r2.Text) ∨
  (r1.Width = r2.Width ∧ r1.Height = r2.Height ∧ r1.Type' = r2.Type' ∧
    r1.BgColor ≠ r2.BgColor ∧ r1.FgColor = r2.FgColor ∧ r1.Text = r2.Text) ∨
  (r1.Width = r2.Width ∧ r1.Height = r2.Height ∧ r1.Type' = r2.Type' ∧
    r1.BgColor = r2.BgColor ∧ r1.FgColor ≠ r2.FgColor ∧ r1.Text = r2.Text) ∨
  (r1.Width = r2.Width ∧ r1.Height = r2.Height ∧ r1.Type' = r2.Type' ∧
    r1.BgColor = r2.BgColor ∧ r1.FgColor = r2.FgColor ∧ r1.Text ≠ r2.Text)

/-! ### Concrete fixtures used by witnesses and counterexamples -/

/-- A process environment in which the embedded font parses and text
measures as height 0 (the metric value is irrelevant to the claims). -/
def env0 : Env := { fontOK := true, measureH := fun _ _ => 0 }

/-- A process environment in which the embedded font fails to parse. -/
def envNoFont : Env := { fontOK := false, measureH := fun _ _ => 0 }

/-- A small generator state: empty cache, two pooled 24-point faces. -/
def igDemo : ImageGenerator := { memoryCache := cacheNew, fontPool := NewFontPool env0 2 }

/-- 100×100 PNG request whose text is the single byte 255 — not valid
UTF-8. -/
def reqBadText : ImageRequest :=
  { Width := 100, Height := 100, Type' := pngBytes, BgColor := DefaultBg,
    FgColor := DefaultFg, Text := [255] }

/-- 100×100 PNG request with valid ASCII text `t` (byte 116). -/
def reqAsciiText : ImageRequest :=
  { Width := 100, Height := 100, Type' := pngBytes, BgColor := DefaultBg,
    FgColor := DefaultFg, Text := [116] }

/-- 100×100 PNG request whose background color has the wrong length. -/
def reqBadColor : ImageRequest :=
  { Width := 100, Height := 100, Type' := pngBytes, BgColor := [122, 122],
    FgColor := DefaultFg, Text := [116] }


/-! ## Helper lemmas -/

/-- The source's upper clamp (`if a > b then b else a`) is `min b a`. -/
theorem if_gt_eq_min (a b : Rat) : (if a > b then b else a) = min b a := by
  rw [min_def]; split_ifs <;> linarith

/-- The source's lower clamp (`if a < b then b else a`) is `max b a`. -/
theorem if_lt_eq_max (a b : Rat) : (if a < b then b else a) = max b a := by
  rw [max_def]; split_ifs <;> linarith

/-- Every byte of `natDec n` is an ASCII decimal digit. -/
theorem natDec_digits (n : Nat) : ∀ d ∈ natDec n, 48 ≤ d ∧ d ≤ 57 := by
  induction n using Nat.strong_induction_on with
  | _ n ih =>
    intro d hd
    unfold natDec at hd
    split at hd
    · next h =>
      simp only [List.mem_singleton] at hd
      omega
    · next h =>
      rw [List.mem_append, List.mem_singleton] at hd
      rcases hd with hd | hd
      · exact ih (n / 10) (Nat.div_lt_self (by omega) (by omega)) d hd
      · have := Nat.mod_lt n (show 0 < 10 by omega)
        omega

/-- `natDec n` passes the `\d` byte test everywhere. -/
theorem natDec_all_digits (n : Nat) : (natDec n).all isDigitByte = true := by
  rw [List.all_eq_true]
  intro d hd
  have := natDec_digits n d hd
  simp [isDigitByte]
  omega

/-- `natDec n` is never empty. -/
theorem natDec_ne_nil (n : Nat) : natDec n ≠ [] := by
  unfold natDec
  split
  · simp
  · simp

/-- Folding the decimal-value step over `natDec n` starting from `acc`. -/
theorem natDec_foldl (n : Nat) :
    ∀ acc : Nat,
      List.foldl (fun acc d => acc * 10 + (d - 48)) acc (natDec n) =
        acc * 10 ^ (natDec n).length + n := by
  induction n using Nat.strong_induction_on with
  | _ n ih =>
    intro acc
    unfold natDec
    split
    · next h =>
      simp [List.foldl]
    · next h =>
      rw [List.foldl_append, List.length_append]
      rw [ih (n / 10) (Nat.div_lt_self (by omega) (by omega)) acc]
      simp only [List.foldl_cons, List.foldl_nil, List.length_singleton]
      rw [pow_succ, ← mul_assoc]
      have hmod := Nat.mod_lt n (show 0 < 10 by omega)
      have hdm := Nat.div_add_mod n 10
      omega

/-- Round trip: parsing the printed decimal recovers the number. -/
theorem decVal_natDec (n : Nat) : decVal (natDec n) = n := by
  have := natDec_foldl n 0
  simpa [decVal] using this

/-- Decimal printing of naturals is injective. -/
theorem natDec_inj {a b : Nat} (h : natDec a = natDec b) : a = b := by
  have ha := decVal_natDec a
  rw [h, decVal_natDec] at ha
  omega

/-- `intDec` of a positive Go int is `natDec` of its magnitude. -/
theorem intDec_pos (i : Int) (h : 1 ≤ i) : intDec i = natDec i.toNat := by
  unfold intDec
  rw [if_neg (by omega)]

/-- `intDec` is injective on positive ints. -/
theorem intDec_inj_pos {a b : Int} (ha : 1 ≤ a) (hb : 1 ≤ b)
    (h : intDec a = intDec b) : a = b := by
  rw [intDec_pos a ha, intDec_pos b hb] at h
  have := natDec_inj h
  omega

/-- `takeWhile` over `good ++ bad :: rest` stops exactly at `bad`. -/
theorem takeWhile_append_all {p : Nat → Bool} (l1 : List Nat) (b : Nat) (l2 : List Nat)
    (h1 : l1.all p = true) (hb : p b = false) :
    (l1 ++ b :: l2).takeWhile p = l1 := by
  induction l1 with
  | nil => simp [List.takeWhile_cons, hb]
  | cons a l ih =>
    rw [List.all_cons, Bool.and_eq_true] at h1
    simp [List.takeWhile_cons, h1.1, ih h1.2]

/-- `matchSize` on a well-formed `WxH` token returns the two groups. -/
theorem matchSize_append (w h : Nat) :
    matchSize (natDec w ++ 120 :: natDec h) = some (natDec w, natDec h) := by
  unfold matchSize
  dsimp only
  rw [takeWhile_append_all (natDec w) 120 (natDec h) (natDec_all_digits w) (by rfl)]
  rw [List.drop_left]
  simp [natDec_ne_nil, natDec_all_digits]

/-- `hexRender` always produces exactly the requested width. -/
theorem hexRender_length (w : Nat) : ∀ v, (hexRender w v).length = w := by
  induction w with
  | zero => intro v; rfl
  | succ w ih => intro v; simp [hexRender, ih]

/-- Every byte accepted by the hex-color regex has a hex value below 16. -/
theorem hexDigitVal_of_isHexDigitByte {b : Nat} (h : isHexDigitByte b = true) :
    ∃ v, hexDigitVal b = some v := by
  simp only [isHexDigitByte, decide_eq_true_eq] at h
  unfold hexDigitVal
  split_ifs with h1 h2 h3
  · exact ⟨_, rfl⟩
  · exact ⟨_, rfl⟩
  · exact ⟨_, rfl⟩
  · omega

/-- A six-byte all-hex string parses to an RGBA color with alpha 255. -/
theorem parseHexColor_of_sixHex (c : GoStr) (hlen : c.length = 6)
    (hall : c.all isHexDigitByte = true) :
    ∃ col, parseHexColor c = .ok col ∧ col.a = 255 := by
  match c, hlen with
  | [c0, c1, c2, c3, c4, c5], _ =>
    simp only [List.all_cons, List.all_nil, Bool.and_eq_true, Bool.and_true] at hall
    obtain ⟨h0, h1, h2, h3, h4, h5⟩ := hall
    obtain ⟨v0, hv0⟩ := hexDigitVal_of_isHexDigitByte h0
    obtain ⟨v1, hv1⟩ := hexDigitVal_of_isHexDigitByte h1
    obtain ⟨v2, hv2⟩ := hexDigitVal_of_isHexDigitByte h2
    obtain ⟨v3, hv3⟩ := hexDigitVal_of_isHexDigitByte h3
    obtain ⟨v4, hv4⟩ := hexDigitVal_of_isHexDigitByte h4
    obtain ⟨v5, hv5⟩ := hexDigitVal_of_isHexDigitByte h5
    refine ⟨⟨16 * v0 + v1, 16 * v2 + v3, 16 * v4 + v5, 255⟩, ?_, rfl⟩
    simp [parseHexColor, parseHexPair, hv0, hv1, hv2, hv3, hv4, hv5]

/-- A color accepted by `ValidateColor` and non-empty is six hex bytes. -/
theorem validateColor_nonempty {c : GoStr} (hne : c ≠ [])
    (h : ValidateColor c = true) : c.length = 6 ∧ c.all isHexDigitByte = true := by
  unfold ValidateColor at h
  rw [if_neg hne] at h
  rw [Bool.and_eq_true, decide_eq_true_eq] at h
  exact h

/-- `createImage` success values: all request fields except `Text` are
preserved, and `Text` is preserved exactly when it was valid UTF-8. -/
theorem createImage_frame (env : Env) (ig : ImageGenerator) (req : ImageRequest)
    (ctx : ImageCtx) (req2 : ImageRequest)
    (h : (createImage env ig req).1 = .ok (ctx, req2)) :
    req2.Width = req.Width ∧ req2.Height = req.Height ∧ req2.Type' = req.Type' ∧
      req2.BgColor = req.BgColor ∧ req2.FgColor = req.FgColor ∧
      req2.Text = (if utf8ValidStr req.Text then req.Text else invalidUTF8Text) := by
  unfold createImage at h
  rcases hbg : parseHexColor req.BgColor with e | cb
  · rw [hbg] at h; simp at h
  · rw [hbg] at h
    rcases hfg : parseHexColor req.FgColor with e | cf
    · rw [hfg] at h; simp at h
    · rw [hfg] at h
      simp only [Except.ok.injEq, Prod.mk.injEq] at h
      obtain ⟨-, hreq⟩ := h
      subst hreq
      refine ⟨rfl, rfl, rfl, rfl, rfl, rfl⟩

/-- `createImage` fails exactly on the color-parse branches, and the
failure does not depend on the text. -/
theorem createImage_ok_iff (env : Env) (ig : ImageGenerator) (req : ImageRequest) :
    exceptIsOk (createImage env ig req).1 =
      (exceptIsOk (parseHexColor req.BgColor) && exceptIsOk (parseHexColor req.FgColor)) := by
  unfold createImage
  rcases hbg : parseHexColor req.BgColor with e | cb
  · simp [exceptIsOk]
  · rcases hfg : parseHexColor req.FgColor with e | cf
    · simp [exceptIsOk]
    · simp [exceptIsOk]

/-! ## Claim theorems -/

/-- Claim C1: for every width and height in `[1, 3000]` and every text,
`calculateOptimalFontSize` returns exactly the value of the spec's
six-step algorithm (min dimension, glyph count at least 1, average
char width, dimension scale, base size, clamp between
`max(12, minDim*0.02)` and `min(150, minDim*0.4)`), including the case
where the lower clamp bound exceeds the upper one. -/
theorem C1_fontSize_matches_spec (w h : Int) (text : GoStr)
    (_h1 : 1 ≤ w) (_h2 : w ≤ 3000) (_h3 : 1 ≤ h) (_h4 : h ≤ 3000) :
    calculateOptimalFontSize w h text = spec_computeFontSize w h text := by
  have hmin : (if h < w then (h : Rat) else (w : Rat)) = min (w : Rat) (h : Rat) := by
    rcases lt_or_le h w with hlt | hle
    · rw [if_pos hlt, min_eq_right]
      exact_mod_cast hlt.le
    · rw [if_neg (not_lt.mpr hle), min_eq_left]
      exact_mod_cast hle
  have hcount :
      (if ((utf8RuneCount text : Nat) : Rat) = 0 then (1 : Rat) else (utf8RuneCount text : Rat)) =
        max 1 (utf8RuneCount text : Rat) := by
    rcases Nat.eq_zero_or_pos (utf8RuneCount text) with h0 | hpos
    · simp [h0]
    · have h1c : (1 : Rat) ≤ (utf8RuneCount text : Rat) := by exact_mod_cast hpos
      rw [if_neg (by positivity), max_eq_right h1c]
  simp only [calculateOptimalFontSize, spec_computeFontSize]
  rw [hmin, hcount]
  rw [if_gt_eq_min, if_lt_eq_max, if_gt_eq_min, if_lt_eq_max]
  congr 1
  exact min_comm _ _

/-- Witness for C1 at `(10, 10, "10x10")`, where the lower clamp bound
12 exceeds the upper clamp bound 4 and both sides return 12. -/
theorem C1_witness :
    (1 : Int) ≤ 10 ∧
      calculateOptimalFontSize 10 10 [49, 48, 120, 49, 48] =
        spec_computeFontSize 10 10 [49, 48, 120, 49, 48] ∧
      calculateOptimalFontSize 10 10 [49, 48, 120, 49, 48] = 12 :=
  ⟨by decide,
   C1_fontSize_matches_spec 10 10 [49, 48, 120, 49, 48]
     (by decide) (by decide) (by decide) (by decide),
   by
    have hc : utf8RuneCount [49, 48, 120, 49, 48] = 5 := by decide
    unfold calculateOptimalFontSize
    rw [hc]
    norm_num⟩

/-- Claim C2 counterexample: an `ImageRequest` is *not* immutable.  On
the concrete request `reqBadText` (text is the single byte 255, not
valid UTF-8), `createImage` — and therefore `GenerateImage` on a cache
miss — returns the request with its `Text` field overwritten by
`Invalid UTF-8`, different from the field it was constructed with. -/
theorem C2_counterexample :
    ((createImage env0 igDemo reqBadText).1.toOption.map fun pr => pr.2.Text) =
        some invalidUTF8Text ∧
      (GenerateImage env0 0 igDemo reqBadText).2.2.Text = invalidUTF8Text ∧
      reqBadText.Text ≠ invalidUTF8Text := by
  refine ⟨by decide, by decide, by decide⟩

/-- Claim C2 (amended): `GenerateImage` and `createImage` leave the
five fields `Width`, `Height`, `Type`, `BgColor`, `FgColor` of the
request unchanged, and leave `Text` unchanged whenever it is valid
UTF-8; when `Text` is not valid UTF-8, `createImage` (reached by
`GenerateImage` on a cache miss) overwrites it with `Invalid UTF-8`
(`getCacheKey` and `encodeImage` take no part of the request by
pointer and change nothing). -/
theorem C2_request_frame (env : Env) (now : Nat) (ig : ImageGenerator) (req : ImageRequest) :
    ((GenerateImage env now ig req).2.2.Width = req.Width ∧
      (GenerateImage env now ig req).2.2.Height = req.Height ∧
      (GenerateImage env now ig req).2.2.Type' = req.Type' ∧
      (GenerateImage env now ig req).2.2.BgColor = req.BgColor ∧
      (GenerateImage env now ig req).2.2.FgColor = req.FgColor) ∧
    (utf8ValidStr req.Text = true → (GenerateImage env now ig req).2.2.Text = req.Text) ∧
    ((GenerateImage env now ig req).2.2.Text = req.Text ∨
      (GenerateImage env now ig req).2.2.Text = invalidUTF8Text) ∧
    (∀ ctx req2, (createImage env ig req).1 = .ok (ctx, req2) →
      req2.Width = req.Width ∧ req2.Height = req.Height ∧ req2.Type' = req.Type' ∧
        req2.BgColor = req.BgColor ∧ req2.FgColor = req.FgColor ∧
        req2.Text = (if utf8ValidStr req.Text then req.Text else invalidUTF8Text)) := by
  have hgen :
      (GenerateImage env now ig req).2.2 = req ∨
        (GenerateImage env now ig req).2.2 =
          { req with Text := if utf8ValidStr req.Text then req.Text else invalidUTF8Text } := by
    unfold GenerateImage
    rcases hget : cacheGet now ig.memoryCache (getCacheKey req) with ⟨d, cache2⟩
    rcases d with - | d
    · rcases hci : createImage env ig req with ⟨res, pool2⟩
      rcases res with e | ⟨ctx, req2⟩
      · left; simp [hget, hci]
      · have hframe := createImage_frame env ig req ctx req2 (by rw [hci])
        right
        obtain ⟨hW, hH, hT, hB, hF, hX⟩ := hframe
        have hreq2 : req2 =
            { req with Text := if utf8ValidStr req.Text then req.Text else invalidUTF8Text } := by
          cases req2
          cases req
          simp_all
        rcases hen : encodeImage ctx req.Type' with e | data <;>
          simp [hget, hci, hreq2, hen]

    · left; simp [hget]
  constructor
  · rcases hgen with hg | hg <;> rw [hg] <;> exact ⟨rfl, rfl, rfl, rfl, rfl⟩
  refine ⟨?_, ?_, ?_⟩
  · intro hv
    rcases hgen with hg | hg
    · rw [hg]
    · rw [hg]
      simp [hv]
  · rcases hgen with hg | hg
    · rw [hg]; left; rfl
    · rw [hg]
      cases hvalid : utf8ValidStr req.Text
      · right; simp [hvalid]
      · left; simp [hvalid]
  · intro ctx req2 hok
    exact createImage_frame env ig req ctx req2 hok

/-- Witness for the amended C2 at concrete inputs: a valid-UTF-8
request passes through `GenerateImage` with every field (including
`Text`) unchanged. -/
theorem C2_witness :
    utf8ValidStr reqAsciiText.Text = true ∧
      (GenerateImage env0 0 igDemo reqAsciiText).2.2.Width = reqAsciiText.Width ∧
      (GenerateImage env0 0 igDemo reqAsciiText).2.2.Text = reqAsciiText.Text :=
  ⟨by decide,
   (C2_request_frame env0 0 igDemo reqAsciiText).1.1,
   (C2_request_frame env0 0 igDemo reqAsciiText).2.1 (by decide)⟩

/-- Claim C3: if `GenerateImage` returns an error (image creation or
encoding failed), the result cache is left exactly as it was — a
failed generation is never written to the cache.  (The cache itself is
modelled from spec §4.6, its package source not being under `src/`.) -/
theorem C3_failed_generation_preserves_cache (env : Env) (now : Nat)
    (ig : ImageGenerator) (req : ImageRequest)
    (h : exceptIsOk (GenerateImage env now ig req).1 = false) :
    (GenerateImage env now ig req).2.1.memoryCache = ig.memoryCache := by
  unfold GenerateImage at h ⊢
  rcases hget : cacheGet now ig.memoryCache (getCacheKey req) with ⟨d, cache2⟩
  rcases d with - | d
  · rcases hci : createImage env ig req with ⟨res, pool2⟩
    rcases res with e | ⟨ctx, req2⟩
    · simp [hget, hci]
    · rcases hen : encodeImage ctx req2.Type' with e | data
      · simp [hget, hci, hen]
      · simp [hget, hci, hen, exceptIsOk] at h
  · simp [hget, exceptIsOk] at h

/-- Witness for C3: a request with an invalid background color fails
generation and leaves the (empty) cache untouched. -/
theorem C3_witness :
    exceptIsOk (GenerateImage env0 0 igDemo reqBadColor).1 = false ∧
      (GenerateImage env0 0 igDemo reqBadColor).2.1.memoryCache = igDemo.memoryCache :=
  ⟨by decide, C3_failed_generation_preserves_cache env0 0 igDemo reqBadColor (by decide)⟩

/-- Claim C4: `getCacheKey` is a pure deterministic function of the six
request fields with fixed output length 32, and for two validated
requests that differ in exactly one field the pre-hash serialization
strings differ (so the MD5 keys differ up to hash collision). -/
theorem C4_cacheKey_fingerprint :
    (∀ req : ImageRequest, (getCacheKey req).length = 32) ∧
      (∀ r1 r2 : ImageRequest, r1 = r2 → getCacheKey r1 = getCacheKey r2) ∧
      (∀ r1 r2 : ImageRequest, 1 ≤ r1.Width → 1 ≤ r1.Height → 1 ≤ r2.Width → 1 ≤ r2.Height →
        oneFieldDiff r1 r2 → serializeKey r1 ≠ serializeKey r2) := by
  refine ⟨?_, ?_, ?_⟩
  · intro req
    exact hexRender_length 32 (digest128 (serializeKey req))
  · intro r1 r2 h
    rw [h]
  · intro r1 r2 hw1 hh1 hw2 hh2 hdiff heq
    unfold serializeKey at heq
    rcases hdiff with ⟨hW, hH, hT, hB, hF, hX⟩ | ⟨hW, hH, hT, hB, hF, hX⟩ |
      ⟨hW, hH, hT, hB, hF, hX⟩ | ⟨hW, hH, hT, hB, hF, hX⟩ |
      ⟨hW, hH, hT, hB, hF, hX⟩ | ⟨hW, hH, hT, hB, hF, hX⟩
    · rw [hH, hT, hB, hF, hX] at heq
      simp only [List.append_assoc] at heq
      exact hW (intDec_inj_pos hw1 hw2 (List.append_cancel_right heq))
    · rw [hT, hB, hF, hX] at heq
      simp only [List.append_assoc] at heq
      have h2 := List.append_cancel_left (hW ▸ heq)
      rw [List.cons_append, List.nil_append] at h2
      have h3 := List.tail_eq_of_cons_eq h2
      exact hH (intDec_inj_pos hh1 hh2 (List.append_cancel_right h3))
    · rw [hW, hH, hB, hF, hX] at heq
      simp only [List.append_assoc] at heq
      have h2 := List.append_cancel_left heq
      have h3 := List.append_cancel_left (List.append_cancel_left h2)
      have h4 := List.append_cancel_left h3
      exact hT (List.append_cancel_right h4)
    · rw [hW, hH, hT, hF, hX] at heq
      simp only [List.append_assoc] at heq
      have h2 := List.append_cancel_left (List.append_cancel_left (List.append_cancel_left
        (List.append_cancel_left (List.append_cancel_left (List.append_cancel_left heq)))))
      exact hB (List.append_cancel_right h2)
    · rw [hW, hH, hT, hB, hX] at heq
      simp only [List.append_assoc] at heq
      have h2 := List.append_cancel_left (List.append_cancel_left (List.append_cancel_left
        (List.append_cancel_left (List.append_cancel_left (List.append_cancel_left
          (List.append_cancel_left (List.append_cancel_left heq)))))))
      exact hF (List.append_cancel_right h2)
    · rw [hW, hH, hT, hB, hF] at heq
      simp only [List.append_assoc] at heq
      have h2 := List.append_cancel_left (List.append_cancel_left (List.append_cancel_left
        (List.append_cancel_left (List.append_cancel_left (List.append_cancel_left
          (List.append_cancel_left (List.append_cancel_left (List.append_cancel_left
            (List.append_cancel_left heq)))))))))
      exact hX h2

/-- Witness for C4 at two concrete validated requests differing only in
width. -/
theorem C4_witness :
    (getCacheKey reqAsciiText).length = 32 ∧
      (1 : Int) ≤ reqAsciiText.Width ∧
      oneFieldDiff reqAsciiText { reqAsciiText with Width := 200 } ∧
      serializeKey reqAsciiText ≠ serializeKey { reqAsciiText with Width := 200 } :=
  ⟨C4_cacheKey_fingerprint.1 reqAsciiText,
   by decide,
   Or.inl (by refine ⟨by decide, rfl, rfl, rfl, rfl, rfl⟩),
   C4_cacheKey_fingerprint.2.2 reqAsciiText { reqAsciiText with Width := 200 }
     (by decide) (by decide) (by decide) (by decide)
     (Or.inl (by refine ⟨by decide, rfl, rfl, rfl, rfl, rfl⟩))⟩

/-- Claim C5: size-token validation succeeds exactly on `WxH` tokens
whose components are integers in `[1, 3000]`.  For every such `(w, h)`,
`ParseSize` returns those exact dimensions and `NewImageRequest` (with
a valid remainder of the request) returns an `ImageRequest` carrying
them; for every token whose regex match fails or whose components fall
outside `[1, 3000]`, both return an `InvalidSize`-class error. -/
theorem C5_size_validation :
    (∀ w h : Nat, 1 ≤ w → w ≤ 3000 → 1 ≤ h → h ≤ 3000 →
      ∀ p : RequestQueryParams,
        ValidateColor (applyDefault p.Bg DefaultBg) = true →
        ValidateColor (applyDefault p.Fg DefaultFg) = true →
        ParseSize (natDec w ++ 120 :: natDec h) = .ok ⟨(w : Int), (h : Int)⟩ ∧
          ∃ req, NewImageRequest (natDec w ++ 120 :: natDec h) [] p = .ok req ∧
            req.Width = (w : Int) ∧ req.Height = (h : Int)) ∧
      (∀ token : GoStr,
        (matchSize token = none ∨
          ∃ d1 d2, matchSize token = some (d1, d2) ∧
            (decVal d1 = 0 ∨ 3000 < decVal d1 ∨ decVal d2 = 0 ∨ 3000 < decVal d2)) →
        ∃ e, ParseSize token = .error e ∧ InvalidSizeErr e ∧
          ∀ it p, NewImageRequest token it p = .error e) := by
  constructor
  · intro w h hw1 hw2 hh1 hh2 p hbg hfg
    have hps : ParseSize (natDec w ++ 120 :: natDec h) = .ok ⟨(w : Int), (h : Int)⟩ := by
      unfold ParseSize
      rw [matchSize_append]
      dsimp only
      rw [decVal_natDec, decVal_natDec]
      rw [if_neg (by unfold MaxImageSize; omega)]
    refine ⟨hps, ?_⟩
    unfold NewImageRequest
    rw [hps]
    dsimp only
    rw [if_neg (by decide)]
    rw [if_neg (by simp [hbg])]
    rw [if_neg (by simp [hfg])]
    exact ⟨_, rfl, rfl, rfl⟩
  · intro token hbad
    rcases hbad with hnone | ⟨d1, d2, hsome, hrange⟩
    · have hps : ParseSize token = .error .invalidSizeFormat := by
        unfold ParseSize
        rw [hnone]
      refine ⟨.invalidSizeFormat, hps, Or.inl rfl, ?_⟩
      intro it p
      unfold NewImageRequest
      rw [hps]
    · have hps : ParseSize token = .error .sizeOutOfRange := by
        unfold ParseSize
        rw [hsome]
        dsimp only
        rw [if_pos (by unfold MaxImageSize; omega)]
      refine ⟨.sizeOutOfRange, hps, Or.inr rfl, ?_⟩
      intro it p
      unfold NewImageRequest
      rw [hps]

/-- Witness for C5: `300x200` parses to `(300, 200)` and builds a
request with those dimensions; `0x5` (component 0 out of range) and
`abc` (no regex match) are rejected. -/
theorem C5_witness :
    (ParseSize (natDec 300 ++ 120 :: natDec 200) = .ok ⟨300, 200⟩ ∧
        ∃ req, NewImageRequest (natDec 300 ++ 120 :: natDec 200) [] ⟨[], [], [116]⟩ = .ok req ∧
          req.Width = 300 ∧ req.Height = 200) ∧
      (∃ e, ParseSize [48, 120, 53] = .error e ∧ InvalidSizeErr e ∧
        ∀ it p, NewImageRequest [48, 120, 53] it p = .error e) ∧
      (∃ e, ParseSize [97, 98, 99] = .error e ∧ InvalidSizeErr e ∧
        ∀ it p, NewImageRequest [97, 98, 99] it p = .error e) :=
  ⟨C5_size_validation.1 300 200 (by decide) (by decide) (by decide) (by decide)
      ⟨[], [], [116]⟩ (by decide) (by decide),
   C5_size_validation.2 [48, 120, 53]
     (Or.inr ⟨[48], [53], by decide, Or.inl (by decide)⟩),
   C5_size_validation.2 [97, 98, 99] (Or.inl (by decide))⟩

/-- Claim C6: `GetFont` returns a face constructed at exactly the
requested point size and DPI 72; its result does not depend on the
pool at all, so it never returns a pooled face built at a different
size — in particular never one of the pre-populated faces, which are
all built at 24 points. -/
theorem C6_getFont_exact_size :
    (∀ env : Env, ∀ fp1 fp2 : FontPool, ∀ s : Rat, GetFont fp1 env s = GetFont fp2 env s) ∧
      (∀ env : Env, ∀ fp : FontPool, ∀ s : Rat, ∀ f : Face,
        GetFont fp env s = some f → f.size = s ∧ f.dpi = 72) ∧
      (∀ env : Env, ∀ n : Nat, ∀ f : Face, f ∈ (NewFontPool env n).faces → f.size = 24) := by
  refine ⟨fun env fp1 fp2 s => rfl, ?_, ?_⟩
  · intro env fp s f h
    unfold GetFont parseEmbeddedFont at h
    rcases hok : env.fontOK with - | -
    · rw [hok] at h
      simp at h
    · rw [hok] at h
      simp at h
      rw [← h]
      exact ⟨rfl, rfl⟩
  · intro env n f hmem
    unfold NewFontPool at hmem
    simp only [List.mem_filterMap] at hmem
    obtain ⟨-, -, hpf⟩ := hmem
    unfold parseEmbeddedFont at hpf
    rcases hok : env.fontOK with - | -
    · rw [hok] at hpf
      simp at hpf
    · rw [hok] at hpf
      simp at hpf
      rw [← hpf]
      norm_num

/-- Witness for C6: at size 30 with a non-empty two-face pool, the
returned face has size 30 (and the pooled faces have size 24). -/
theorem C6_witness :
    GetFont (NewFontPool env0 2) env0 30 = some ⟨30, 72⟩ ∧
      (30 : Rat) = 30 ∧ (72 : Rat) = 72 :=
  ⟨rfl, (C6_getFont_exact_size.2.1 env0 (NewFontPool env0 2) 30 ⟨30, 72⟩ rfl).1,
   (C6_getFont_exact_size.2.1 env0 (NewFontPool env0 2) 30 ⟨30, 72⟩ rfl).2⟩

/-- Claim C7: when no face can be constructed (`GetFont` returns nil),
`createImage` does not fail the request: it issues the
`LoadFontFace("", fontSize)` fallback at exactly the computed size and
still returns an image; its only error returns are the two color-parse
branches. -/
theorem C7_font_fallback (env : Env) (ig : ImageGenerator) (req : ImageRequest)
    (hfont : env.fontOK = false) :
    (exceptIsOk (createImage env ig req).1 = true →
      ((createImage env ig req).1.toOption.map fun pr => pr.1.face) =
        some (.loadFromPath [] (calculateOptimalFontSize req.Width req.Height req.Text))) ∧
      (∀ e, (createImage env ig req).1 = .error e →
        parseHexColor req.BgColor = .error e ∨ parseHexColor req.FgColor = .error e) ∧
      exceptIsOk (createImage env ig req).1 =
        (exceptIsOk (parseHexColor req.BgColor) && exceptIsOk (parseHexColor req.FgColor)) := by
  have hgf : ∀ s : Rat, GetFont ig.fontPool env s = none := by
    intro s
    unfold GetFont parseEmbeddedFont
    rw [hfont]
    rfl
  refine ⟨?_, ?_, createImage_ok_iff env ig req⟩
  · intro hok
    rcases hbg : parseHexColor req.BgColor with e | cb
    · rw [createImage_ok_iff, hbg] at hok
      simp [exceptIsOk] at hok
    · rcases hfg : parseHexColor req.FgColor with e | cf
      · rw [createImage_ok_iff, hbg, hfg] at hok
        simp [exceptIsOk] at hok
      · simp [createImage, hbg, hfg, hgf]
        exact ⟨_, ⟨_, rfl⟩, rfl⟩
  · intro e herr
    unfold createImage at herr
    rcases hbg : parseHexColor req.BgColor with e2 | cb
    · rw [hbg] at herr
      simp at herr
      left
      rw [herr]
    · rw [hbg] at herr
      rcases hfg : parseHexColor req.FgColor with e2 | cf
      · rw [hfg] at herr
        simp at herr
        right
        rw [herr]
      · rw [hfg] at herr
        simp at herr

/-- Witness for C7: with the failing-font environment and valid
colors, `createImage` succeeds and the drawn face is the fallback at
the computed size. -/
theorem C7_witness :
    envNoFont.fontOK = false ∧
      exceptIsOk (createImage envNoFont igDemo reqAsciiText).1 = true ∧
      ((createImage envNoFont igDemo reqAsciiText).1.toOption.map fun pr => pr.1.face) =
        some (.loadFromPath []
          (calculateOptimalFontSize reqAsciiText.Width reqAsciiText.Height reqAsciiText.Text)) :=
  ⟨by decide, by decide,
   (C7_font_fallback envNoFont igDemo reqAsciiText (by decide)).1 (by decide)⟩

/-- Claim C8: the renderer substitutes the literal `Invalid UTF-8` for
text that is not valid UTF-8 before drawing, and draws valid text
unchanged; text validity never decides success (invalid Unicode is not
an error). -/
theorem C8_invalid_utf8_substitution (env : Env) (ig : ImageGenerator) (req : ImageRequest) :
    (exceptIsOk (createImage env ig req).1 = true →
      ((createImage env ig req).1.toOption.map fun pr => pr.1.drawnText) =
        some (if utf8ValidStr req.Text then req.Text else invalidUTF8Text)) ∧
      (∀ t1 t2 : GoStr,
        exceptIsOk (createImage env ig { req with Text := t1 }).1 =
          exceptIsOk (createImage env ig { req with Text := t2 }).1) := by
  constructor
  · intro hok
    rcases hbg : parseHexColor req.BgColor with e | cb
    · rw [createImage_ok_iff, hbg] at hok
      simp [exceptIsOk] at hok
    · rcases hfg : parseHexColor req.FgColor with e | cf
      · rw [createImage_ok_iff, hbg, hfg] at hok
        simp [exceptIsOk] at hok
      · simp [createImage, hbg, hfg]
        exact ⟨_, ⟨_, rfl⟩, rfl⟩
  · intro t1 t2
    rw [createImage_ok_iff, createImage_ok_iff]

/-- Witness for C8: the invalid-UTF-8 request draws `Invalid UTF-8`;
the ASCII request draws its own text; success is text-independent. -/
theorem C8_witness :
    ((createImage env0 igDemo reqBadText).1.toOption.map fun pr => pr.1.drawnText) =
        some (if utf8ValidStr reqBadText.Text then reqBadText.Text else invalidUTF8Text) ∧
      (if utf8ValidStr reqBadText.Text then reqBadText.Text else invalidUTF8Text) =
        invalidUTF8Text ∧
      exceptIsOk (createImage env0 igDemo { reqBadText with Text := [255] }).1 =
        exceptIsOk (createImage env0 igDemo { reqBadText with Text := [116] }).1 :=
  ⟨(C8_invalid_utf8_substitution env0 igDemo reqBadText).1 (by decide),
   by decide,
   (C8_invalid_utf8_substitution env0 igDemo reqBadText).2 [255] [116]⟩

/-- Claim C9: `encodeImage` dispatches exactly on the four supported
formats — `png` (default compression), `jpg`/`jpeg` (JPEG quality 90),
`gif` (nil options), `webp` (quality 90) — and every other format
string yields an error carrying no image. -/
theorem C9_encode_dispatch :
    (∀ img : ImageCtx,
      encodeImage img pngBytes = .ok (.png img) ∧
        encodeImage img jpgBytes = .ok (.jpeg 90 img) ∧
        encodeImage img jpegBytes = .ok (.jpeg 90 img) ∧
        encodeImage img gifBytes = .ok (.gif none img) ∧
        encodeImage img webpBytes = .ok (.webp 90 img)) ∧
      (∀ (img : ImageCtx) (t : GoStr),
        t ≠ pngBytes → t ≠ jpgBytes → t ≠ jpegBytes → t ≠ gifBytes → t ≠ webpBytes →
        encodeImage img t = .error (.unsupportedEncodeType t)) := by
  constructor
  · intro img
    exact ⟨rfl, rfl, rfl, rfl, rfl⟩
  · intro img t h1 h2 h3 h4 h5
    unfold encodeImage
    rw [if_neg h1, if_neg ?_, if_neg h4, if_neg h5]
    · intro hor
      rcases hor with h | h
      · exact h2 h
      · exact h3 h

/-- Witness for C9 on a concrete context and the unsupported format
`bmp` (bytes 98, 109, 112). -/
theorem C9_witness :
    encodeImage ⟨1, 1, ⟨0, 0, 0, 0⟩, ⟨0, 0, 0, 0⟩, .loadFromPath [] 1, [], 0, 0⟩ pngBytes =
        .ok (.png ⟨1, 1, ⟨0, 0, 0, 0⟩, ⟨0, 0, 0, 0⟩, .loadFromPath [] 1, [], 0, 0⟩) ∧
      encodeImage ⟨1, 1, ⟨0, 0, 0, 0⟩, ⟨0, 0, 0, 0⟩, .loadFromPath [] 1, [], 0, 0⟩
          [98, 109, 112] =
        .error (.unsupportedEncodeType [98, 109, 112]) :=
  ⟨(C9_encode_dispatch.1 ⟨1, 1, ⟨0, 0, 0, 0⟩, ⟨0, 0, 0, 0⟩, .loadFromPath [] 1, [], 0, 0⟩).1,
   C9_encode_dispatch.2 ⟨1, 1, ⟨0, 0, 0, 0⟩, ⟨0, 0, 0, 0⟩, .loadFromPath [] 1, [], 0, 0⟩
     [98, 109, 112] (by decide) (by decide) (by decide) (by decide) (by decide)⟩

/-- Successful validation fixes the colors: they are the defaulted
query colors and both passed `ValidateColor`. -/
theorem newImageRequest_colors (s it : GoStr) (p : RequestQueryParams)
    (req : ImageRequest) (h : NewImageRequest s it p = .ok req) :
    req.BgColor = applyDefault p.Bg DefaultBg ∧ req.FgColor = applyDefault p.Fg DefaultFg ∧
      ValidateColor req.BgColor = true ∧ ValidateColor req.FgColor = true := by
  unfold NewImageRequest at h
  rcases hps : ParseSize s with e | size
  · rw [hps] at h
    simp at h
  · rw [hps] at h
    dsimp only at h
    split_ifs at h <;>
      first
        | (simp at h
           done)
        | (simp only [Except.ok.injEq] at h
           subst h
           exact ⟨rfl, rfl, by assumption, by assumption⟩)


/-- Claim C10: every request produced by a successful
`NewImageRequest` carries colors of exactly six hexadecimal digits, so
`parseHexColor` succeeds on both (with alpha 255) and the two
color-error branches of `createImage` are unreachable: `createImage`
always succeeds on a validated request. -/
theorem C10_validated_colors_parse (s it : GoStr) (p : RequestQueryParams)
    (req : ImageRequest) (h : NewImageRequest s it p = .ok req) :
    (req.BgColor.length = 6 ∧ req.BgColor.all isHexDigitByte = true ∧
      req.FgColor.length = 6 ∧ req.FgColor.all isHexDigitByte = true) ∧
      (∃ c, parseHexColor req.BgColor = .ok c ∧ c.a = 255) ∧
      (∃ c, parseHexColor req.FgColor = .ok c ∧ c.a = 255) ∧
      (∀ env ig, exceptIsOk (createImage env ig req).1 = true) := by
  obtain ⟨hbgeq, hfgeq, hvbg, hvfg⟩ := newImageRequest_colors s it p req h
  have hbgne : req.BgColor ≠ [] := by
    rw [hbgeq]
    unfold applyDefault
    split
    · decide
    · next hne => exact hne
  have hfgne : req.FgColor ≠ [] := by
    rw [hfgeq]
    unfold applyDefault
    split
    · decide
    · next hne => exact hne
  have hbg6 := validateColor_nonempty hbgne hvbg
  have hfg6 := validateColor_nonempty hfgne hvfg
  obtain ⟨cb, hcb, hcba⟩ := parseHexColor_of_sixHex _ hbg6.1 hbg6.2
  obtain ⟨cf, hcf, hcfa⟩ := parseHexColor_of_sixHex _ hfg6.1 hfg6.2
  refine ⟨⟨hbg6.1, hbg6.2, hfg6.1, hfg6.2⟩, ⟨cb, hcb, hcba⟩, ⟨cf, hcf, hcfa⟩, ?_⟩
  intro env ig
  rw [createImage_ok_iff, hcb, hcf]
  rfl

/-- Witness for C10: the validated default request for `300x200` has
six-hex colors, both parse with alpha 255, and `createImage` succeeds
on it in a concrete environment. -/
theorem C10_witness :
    NewImageRequest [51, 48, 48, 120, 50, 48, 48] [] ⟨[], [], [116]⟩ =
        .ok { Width := 300, Height := 200, Type' := pngBytes, BgColor := DefaultBg,
              FgColor := DefaultFg, Text := [116] } ∧
      (∃ c, parseHexColor DefaultBg = .ok c ∧ c.a = 255) ∧
      (∀ env ig,
        exceptIsOk (createImage env ig
          { Width := 300, Height := 200, Type' := pngBytes, BgColor := DefaultBg,
            FgColor := DefaultFg, Text := [116] }).1 = true) :=
  ⟨by decide,
   (C10_validated_colors_parse [51, 48, 48, 120, 50, 48, 48] [] ⟨[], [], [116]⟩
      { Width := 300, Height := 200, Type' := pngBytes, BgColor := DefaultBg,
        FgColor := DefaultFg, Text := [116] } (by decide)).2.1,
   (C10_validated_colors_parse [51, 48, 48, 120, 50, 48, 48] [] ⟨[], [], [116]⟩
      { Width := 300, Height := 200, Type' := pngBytes, BgColor := DefaultBg,
        FgColor := DefaultFg, Text := [116] } (by decide)).2.2.2⟩

end Placeholder
